import Mathlib

/-!
Shallow embedding of the delivery scheduler of the insider-assessment
repository (Go). The embedded code is:

* `internal/constants/message_status.go` — the three message statuses;
* `internal/model/message.go`            — the `Message` record;
* `internal/scheduler/scheduler.go`      — `Start`, `Stop`, `run`,
  `process`, `sendMessage`, `sendMessageWithRetry` and the constants
  `maxMessageLength`, `maxRetries`, `baseDelay`, `redisKeyPrefix`.

External collaborators (the HTTP client, the Postgres repository, the
Redis cache, and the Go scheduler's context/timer) are modelled as an
explicit per-attempt environment; every store/cache call the scheduler
issues is recorded as an `Effect`.  Durations are in nanoseconds, as in
Go's `time.Duration`.
-/

namespace Insider

/-- `constants.MessageStatusPending` from message_status.go. -/
def MessageStatusPending : String := "pending"

/-- `constants.MessageStatusSent` from message_status.go. -/
def MessageStatusSent : String := "sent"

/-- `constants.MessageStatusFailed` from message_status.go. -/
def MessageStatusFailed : String := "failed"

/-- `model.Message` (internal/model/message.go); `SentAt` is not read by
the scheduler and is omitted. -/
structure Message where
  id : Int
  phoneNumber : String
  content : String
  status : String
deriving DecidableEq

/-- `maxMessageLength = 160` (scheduler.go line 126). -/
def maxMessageLength : Nat := 160

/-- `maxRetries = 3` (scheduler.go line 128). -/
def maxRetries : Nat := 3

/-- One second in nanoseconds, Go's `time.Second`. -/
def secondNs : Nat := 1000000000

/-- `baseDelay = 1 * time.Second` (scheduler.go line 129), nanoseconds. -/
def baseDelay : Nat := 1 * secondNs

/-- `redisKeyPrefix = "insider:msg:sent"` (scheduler.go line 127). -/
def redisKeyBase : String := "insider:msg:sent"

/-- Result of decoding the webhook response body into
`struct { MessageID string }`: either `json.Decode` errors, or it yields
a `messageId` (possibly the empty string when the field is absent). -/
inductive RespBody where
  | malformed
  | parsed (messageId : String)
deriving DecidableEq

/-- Result of `s.client.Do(req)`: a transport error, or a response with
a status code and a body. -/
inductive DoResult where
  | transportError
  | ok (statusCode : Nat) (body : RespBody)
deriving DecidableEq

/-- Environment of one delivery attempt: what the external world answers
to each call `sendMessageWithRetry` makes.  `reqErr` is an error from
`http.NewRequestWithContext`; `markSentErr` and `cacheErr` say whether
`repo.MarkAsSent` and `cache.Set` return errors (both are only logged by
the code). -/
structure AttemptEnv where
  reqErr : Bool
  doResult : DoResult
  markSentErr : Bool
  cacheErr : Bool
deriving DecidableEq

/-- Environment of one `sendMessage` run: whether `json.Marshal` errors,
whether `repo.MarkAsFailed` errors (only logged), the per-attempt
environments, and for each backoff after attempt `i` whether the
`select` observes the cancelled context (`ctx.Done()`) rather than the
timer. -/
structure DeliveryEnv where
  marshalErr : Bool
  markFailedErr : Bool
  attempts : Nat → AttemptEnv
  cancelAt : Nat → Bool

/-- A store/cache call issued by the scheduler, in issue order. -/
inductive Effect where
  | markSent (id : Int)
  | markFailed (id : Int)
  | cacheSet (key : String)
deriving DecidableEq

/-- The acceptance test of scheduler.go line 193:
`resp.StatusCode == http.StatusOK || resp.StatusCode == http.StatusCreated
|| resp.StatusCode == http.StatusAccepted`. -/
def isAcceptedStatus (code : Nat) : Bool :=
  code == 200 || code == 201 || code == 202

/-- `sendMessageWithRetry` (scheduler.go lines 177-230): one delivery
attempt.  Returns the Go function's boolean together with the list of
store/cache calls it issued.  Error returns from `MarkAsSent` and
`cache.Set` are logged by the code and never branch, so the fields
`markSentErr`/`cacheErr` do not influence the result. -/
def sendMessageWithRetry (m : Message) (e : AttemptEnv) : Bool × List Effect :=
  if e.reqErr then (false, [])
  else
    match e.doResult with
    | DoResult.transportError => (false, [])
    | DoResult.ok code body =>
      if isAcceptedStatus code then
        match body with
        | RespBody.malformed => (false, [])
        | RespBody.parsed mid =>
          (true, Effect.markSent m.id ::
            (if mid ≠ "" then [Effect.cacheSet (redisKeyBase ++ ":" ++ mid)] else []))
      else
        (false, [])

/-- Terminal condition of one `sendMessage` run. -/
inductive Outcome where
  | sentOk
  | failedAll
  | cancelledMidBackoff
  | skippedTooLong
  | marshalError
  | outOfFuel
deriving DecidableEq

/-- What one `sendMessage` run did: its terminal condition, the
store/cache calls issued, the backoff delays it actually waited out
(nanoseconds, in order), and how many attempts it made. -/
structure UnitResult where
  outcome : Outcome
  effects : List Effect
  delaysWaited : List Nat
  attemptsMade : Nat
deriving DecidableEq

/-- `baseDelay * time.Duration(1<<attempt)` (scheduler.go line 164);
`1 <<< attempt = 2 ^ attempt` at the widths in scope. -/
def backoffDelay (attempt : Nat) : Nat := baseDelay * 2 ^ attempt

/-- The `for attempt := 0; attempt < maxRetries; attempt++` loop of
`sendMessage` (scheduler.go lines 148-174), with the remaining iteration
count as structural fuel; `sendMessage` enters it with
`attempt = 0, fuel = maxRetries`. -/
def attemptLoop (m : Message) (env : DeliveryEnv) (attempt : Nat) :
    Nat → UnitResult
  | 0 => ⟨Outcome.outOfFuel, [], [], 0⟩
  | fuel + 1 =>
    let r := sendMessageWithRetry m (env.attempts attempt)
    if r.1 then
      ⟨Outcome.sentOk, r.2, [], 1⟩
    else if attempt = maxRetries - 1 then
      ⟨Outcome.failedAll, r.2 ++ [Effect.markFailed m.id], [], 1⟩
    else if env.cancelAt attempt then
      ⟨Outcome.cancelledMidBackoff, r.2, [], 1⟩
    else
      let rest := attemptLoop m env (attempt + 1) fuel
      ⟨rest.outcome, r.2 ++ rest.effects,
        backoffDelay attempt :: rest.delaysWaited, 1 + rest.attemptsMade⟩

/-- `sendMessage` (scheduler.go lines 132-175): length guard
(`len(m.Content)` counts bytes, hence `utf8ByteSize`), `json.Marshal`
guard, then the attempt loop. -/
def sendMessage (m : Message) (env : DeliveryEnv) : UnitResult :=
  if m.content.utf8ByteSize > maxMessageLength then
    ⟨Outcome.skippedTooLong, [], [], 0⟩
  else if env.marshalErr then
    ⟨Outcome.marshalError, [], [], 0⟩
  else
    attemptLoop m env 0 maxRetries

/-- Replay of the issued store calls against a store state (message id →
status), to read off the resulting statuses; `cacheSet` does not touch
the store. -/
def applyEffect (store : Int → String) : Effect → Int → String
  | Effect.markSent id => fun j => if j = id then MessageStatusSent else store j
  | Effect.markFailed id => fun j => if j = id then MessageStatusFailed else store j
  | Effect.cacheSet _ => store

/-- Replay a list of effects, first to last. -/
def applyEffects (store : Int → String) (effs : List Effect) : Int → String :=
  effs.foldl applyEffect store

/-- One event observed by the `select` in `run` (scheduler.go lines
94-102): a ticker tick, whose processing pass fetches
`FetchUnsent` (`none` models a fetch error), or the context becoming
done. -/
inductive LoopEvent where
  | tick (fetched : Option (List Message))
  | ctxDone
deriving DecidableEq

/-- What one processing pass did (scheduler.go `process`, lines
105-123): on a fetch error it returns at once, otherwise it fans out one
delivery unit per fetched message and joins. -/
inductive PassOutcome where
  | fetchError
  | ran (msgs : List Message)
deriving DecidableEq

/-- `process` (scheduler.go lines 105-123) at the granularity the loop
sees: fetch error → skip, otherwise fan out over the fetched batch. -/
def process (fetched : Option (List Message)) : PassOutcome :=
  match fetched with
  | none => PassOutcome.fetchError
  | some msgs => PassOutcome.ran msgs

/-- The delivery units a pass starts: none on a fetch error, one per
fetched message otherwise. -/
def unitsStarted : PassOutcome → List Message
  | PassOutcome.fetchError => []
  | PassOutcome.ran msgs => msgs

/-- The `for`/`select` loop of `run` (scheduler.go lines 94-102) over a
finite observed event sequence: each tick runs a pass, `ctxDone` returns
from the loop.  Result: the pass outcomes in order, and whether the loop
returned (`true` exactly when it was ended by cancellation). -/
def runLoop : List LoopEvent → List PassOutcome × Bool
  | [] => ([], false)
  | LoopEvent.ctxDone :: _ => ([], true)
  | LoopEvent.tick f :: rest =>
    let r := runLoop rest
    (process f :: r.1, r.2)

/-- `run` (scheduler.go lines 88-103): one immediate pass, then the
ticker loop. -/
def run (initialFetch : Option (List Message)) (events : List LoopEvent) :
    List PassOutcome × Bool :=
  let r := runLoop events
  (process initialFetch :: r.1, r.2)

/-- The mutex-guarded scheduler state (scheduler.go lines 20-29):
`isRunning`, plus the current run-cycle's context modelled as a
generation counter and a cancelled flag. -/
structure SchedulerState where
  isRunning : Bool
  ctxGen : Nat
  ctxCancelled : Bool
deriving DecidableEq

/-- `Start` (scheduler.go lines 49-65).  Returns the new state, the Go
`error` result (always `nil` = `none`), and whether a new `run` loop
goroutine was launched. -/
def Start (s : SchedulerState) : SchedulerState × Option String × Bool :=
  if s.isRunning then (s, none, false)
  else (⟨true, s.ctxGen + 1, false⟩, none, true)

/-- `Stop` (scheduler.go lines 67-80).  Returns the new state and the Go
`error` result (always `nil` = `none`). -/
def Stop (s : SchedulerState) : SchedulerState × Option String :=
  if !s.isRunning then (s, none)
  else (⟨false, s.ctxGen, true⟩, none)

/-- `IsRunning` (scheduler.go lines 82-86). -/
def IsRunning (s : SchedulerState) : Bool := s.isRunning

/-- One attempt is accepted-and-parseable: the request was issued, the
call returned a response whose status the code accepts, and the body
decoded. -/
def attemptAcceptedParsed (e : AttemptEnv) : Bool :=
  !e.reqErr &&
    match e.doResult with
    | DoResult.ok code (RespBody.parsed _) => isAcceptedStatus code
    | _ => false





/-- Fixture: a short pending message (content 2 bytes, under the limit). -/
def mFix : Message := ⟨1, "+15551234567", "hi", MessageStatusPending⟩

def attRejected : AttemptEnv := ⟨false, DoResult.ok 500 RespBody.malformed, false, false⟩

def attAccepted : AttemptEnv := ⟨false, DoResult.ok 200 (RespBody.parsed "abc"), false, false⟩

def attMalformed200 : AttemptEnv := ⟨false, DoResult.ok 200 RespBody.malformed, false, false⟩

def envAllFail : DeliveryEnv := ⟨false, false, fun _ => attRejected, fun _ => false⟩

def envAccept : DeliveryEnv := ⟨false, false, fun _ => attAccepted, fun _ => false⟩

def envCancel0 : DeliveryEnv := ⟨false, false, fun _ => attRejected, fun _ => true⟩

def envMarshalErr : DeliveryEnv := ⟨true, false, fun _ => attRejected, fun _ => false⟩

def longMsg : Message :=
  ⟨2, "+15551234567", String.mk (List.replicate 161 'a'), MessageStatusPending⟩


/-- A failing attempt issues no store or cache call: every `false` return of
`sendMessageWithRetry` happens before `MarkAsSent` and `cache.Set`. -/
theorem withRetry_false_effects (m : Message) (e : AttemptEnv)
    (h : (sendMessageWithRetry m e).1 = false) :
    (sendMessageWithRetry m e).2 = [] := by
  rcases e with ⟨req, dr, mse, ce⟩
  cases req
  · cases dr with
    | transportError => rfl
    | ok code body =>
      cases body with
      | malformed => simp [sendMessageWithRetry]
      | parsed mid =>
        by_cases hacc : isAcceptedStatus code
        · simp [sendMessageWithRetry, hacc] at h
        · simp [sendMessageWithRetry, hacc]
  · rfl

/-- The boolean an attempt returns is exactly the accepted-and-parseable test. -/
theorem withRetry_fst_eq (m : Message) (e : AttemptEnv) :
    (sendMessageWithRetry m e).1 = attemptAcceptedParsed e := by
  rcases e with ⟨req, dr, mse, ce⟩
  cases req
  · cases dr with
    | transportError => rfl
    | ok code body =>
      cases body with
      | malformed => simp [sendMessageWithRetry, attemptAcceptedParsed]
      | parsed mid =>
        by_cases hacc : isAcceptedStatus code
        · simp [sendMessageWithRetry, attemptAcceptedParsed, hacc]
        · simp [sendMessageWithRetry, attemptAcceptedParsed, hacc]
  · rfl

/-- A successful attempt issues the `MarkAsSent` store write for its message. -/
theorem withRetry_true_mem (m : Message) (e : AttemptEnv)
    (h : (sendMessageWithRetry m e).1 = true) :
    Effect.markSent m.id ∈ (sendMessageWithRetry m e).2 := by
  rcases e with ⟨req, dr, mse, ce⟩
  cases req
  · cases dr with
    | transportError => simp [sendMessageWithRetry] at h
    | ok code body =>
      cases body with
      | malformed => simp [sendMessageWithRetry] at h
      | parsed mid =>
        by_cases hacc : isAcceptedStatus code
        · simp [sendMessageWithRetry, hacc]
        · simp [sendMessageWithRetry, hacc] at h
  · simp [sendMessageWithRetry] at h

/-- No single attempt ever issues a `MarkAsFailed` write; only the retry loop
does, after the last attempt. -/
theorem withRetry_no_markFailed (m : Message) (e : AttemptEnv) (id : Int) :
    Effect.markFailed id ∉ (sendMessageWithRetry m e).2 := by
  rcases e with ⟨req, dr, mse, ce⟩
  cases req
  · cases dr with
    | transportError => simp [sendMessageWithRetry]
    | ok code body =>
      cases body with
      | malformed => simp [sendMessageWithRetry]
      | parsed mid =>
        by_cases hacc : isAcceptedStatus code
        · by_cases hmid : mid = ""
          · simp [sendMessageWithRetry, hacc, hmid]
          · simp [sendMessageWithRetry, hacc, hmid]
        · simp [sendMessageWithRetry, hacc]
  · simp [sendMessageWithRetry]

/-- One unfolding of the retry loop body (scheduler.go lines 148-174). -/
theorem attemptLoop_succ (m : Message) (env : DeliveryEnv) (attempt fuel : Nat) :
    attemptLoop m env attempt (fuel + 1) =
      (let r := sendMessageWithRetry m (env.attempts attempt)
       if r.1 then ⟨Outcome.sentOk, r.2, [], 1⟩
       else if attempt = maxRetries - 1 then
         ⟨Outcome.failedAll, r.2 ++ [Effect.markFailed m.id], [], 1⟩
       else if env.cancelAt attempt then
         ⟨Outcome.cancelledMidBackoff, r.2, [], 1⟩
       else
         let rest := attemptLoop m env (attempt + 1) fuel
         ⟨rest.outcome, r.2 ++ rest.effects,
           backoffDelay attempt :: rest.delaysWaited, 1 + rest.attemptsMade⟩) := rfl

/-- Full case analysis of a validated `sendMessage` run over the first success,
the first observed cancellation, or exhaustion of the 3 attempts. -/
theorem sendMessage_cases (m : Message) (env : DeliveryEnv)
    (hlen : ¬ m.content.utf8ByteSize > maxMessageLength)
    (hm : env.marshalErr = false) :
    sendMessage m env =
      if (sendMessageWithRetry m (env.attempts 0)).1 then
        ⟨Outcome.sentOk, (sendMessageWithRetry m (env.attempts 0)).2, [], 1⟩
      else if env.cancelAt 0 then
        ⟨Outcome.cancelledMidBackoff, [], [], 1⟩
      else if (sendMessageWithRetry m (env.attempts 1)).1 then
        ⟨Outcome.sentOk, (sendMessageWithRetry m (env.attempts 1)).2, [backoffDelay 0], 2⟩
      else if env.cancelAt 1 then
        ⟨Outcome.cancelledMidBackoff, [], [backoffDelay 0], 2⟩
      else if (sendMessageWithRetry m (env.attempts 2)).1 then
        ⟨Outcome.sentOk, (sendMessageWithRetry m (env.attempts 2)).2,
          [backoffDelay 0, backoffDelay 1], 3⟩
      else
        ⟨Outcome.failedAll, [Effect.markFailed m.id],
          [backoffDelay 0, backoffDelay 1], 3⟩ := by
  unfold sendMessage
  rw [if_neg hlen, hm]
  simp only [Bool.false_eq_true, if_false]
  show attemptLoop m env 0 (2 + 1) = _
  by_cases h0 : (sendMessageWithRetry m (env.attempts 0)).1
  · simp [attemptLoop_succ, h0]
  · by_cases c0 : env.cancelAt 0
    · simp [attemptLoop_succ, h0, c0, maxRetries,
        withRetry_false_effects m (env.attempts 0) (by simpa using h0)]
    · by_cases h1 : (sendMessageWithRetry m (env.attempts 1)).1
      · simp [attemptLoop_succ, h0, c0, h1, maxRetries,
          withRetry_false_effects m (env.attempts 0) (by simpa using h0)]
      · by_cases c1 : env.cancelAt 1
        · simp [attemptLoop_succ, h0, c0, h1, c1, maxRetries,
            withRetry_false_effects m (env.attempts 0) (by simpa using h0),
            withRetry_false_effects m (env.attempts 1) (by simpa using h1)]
        · by_cases h2 : (sendMessageWithRetry m (env.attempts 2)).1
          · simp [attemptLoop_succ, h0, c0, h1, c1, h2, maxRetries,
              withRetry_false_effects m (env.attempts 0) (by simpa using h0),
              withRetry_false_effects m (env.attempts 1) (by simpa using h1)]
          · simp [attemptLoop_succ, h0, c0, h1, c1, h2, maxRetries,
              withRetry_false_effects m (env.attempts 0) (by simpa using h0),
              withRetry_false_effects m (env.attempts 1) (by simpa using h1),
              withRetry_false_effects m (env.attempts 2) (by simpa using h2)]



/-- Claim C4: for every message whose body length (in bytes) exceeds the fixed
maximum of 160, the delivery unit makes no attempt and issues no status write,
so replaying its effects leaves every store state — in particular a pending
status — unchanged. -/
theorem C4_skip_too_long (m : Message) (env : DeliveryEnv)
    (hlen : m.content.utf8ByteSize > maxMessageLength) :
    sendMessage m env = ⟨Outcome.skippedTooLong, [], [], 0⟩ ∧
    (∀ store : Int → String, applyEffects store (sendMessage m env).effects = store) := by
  have h : sendMessage m env = ⟨Outcome.skippedTooLong, [], [], 0⟩ := by
    unfold sendMessage; rw [if_pos hlen]
  exact ⟨h, fun store => by rw [h]; rfl⟩

/-- Claim C10: if JSON-serializing the delivery payload fails, the delivery unit
abandons the message before any attempt and issues no status write, leaving the
message pending. -/
theorem C10_marshal_error (m : Message) (env : DeliveryEnv)
    (hlen : ¬ m.content.utf8ByteSize > maxMessageLength)
    (hm : env.marshalErr = true) :
    sendMessage m env = ⟨Outcome.marshalError, [], [], 0⟩ ∧
    (∀ store : Int → String, applyEffects store (sendMessage m env).effects = store) := by
  have h : sendMessage m env = ⟨Outcome.marshalError, [], [], 0⟩ := by
    unfold sendMessage; rw [if_neg hlen, if_pos (by simp [hm])]
  exact ⟨h, fun store => by rw [h]; rfl⟩

/-- Claim C5: if the shared context is cancelled while the unit waits out a
backoff delay, the unit returns having issued no store or cache call at all —
in particular neither `MarkAsSent` nor `MarkAsFailed` — so the message status
is left pending. -/
theorem C5_cancel_leaves_pending (m : Message) (env : DeliveryEnv)
    (h : (sendMessage m env).outcome = Outcome.cancelledMidBackoff) :
    (sendMessage m env).effects = [] ∧
    (∀ store : Int → String, applyEffects store (sendMessage m env).effects = store) := by
  by_cases hlen : m.content.utf8ByteSize > maxMessageLength
  · rw [sendMessage, if_pos hlen] at h; simp at h
  · by_cases hm : env.marshalErr
    · rw [sendMessage, if_neg hlen, if_pos (by simp [hm])] at h; simp at h
    · have hm' : env.marshalErr = false := by simpa using hm
      rw [sendMessage_cases m env hlen hm'] at h ⊢
      split_ifs at h ⊢ <;> simp_all [applyEffects]

/-- Claim C9: `Start` while already running returns success with no side effects
(state unchanged, no second loop launched); `Stop` while stopped returns success
with no side effects; and neither operation ever returns an error. -/
theorem C9_lifecycle_noops (s : SchedulerState) :
    (s.isRunning = true → Start s = (s, none, false)) ∧
    (s.isRunning = false → Stop s = (s, none)) ∧
    (Start s).2.1 = none ∧
    (Stop s).2 = none := by
  refine ⟨?_, ?_, ?_, ?_⟩
  · intro h; simp [Start, h]
  · intro h; simp [Stop, h]
  · by_cases h : s.isRunning <;> simp [Start, h]
  · by_cases h : s.isRunning <;> simp [Stop, h]

/-- Claim C7: a fetch error makes the pass a skipped pass that starts no delivery
units, and the loop then processes the remaining events exactly as it would have
without that tick; the loop terminates if and only if the context-done event is
observed, i.e. only cancellation via `Stop` ends the loop. -/
theorem C7_fetch_error_nonfatal (rest events : List LoopEvent) :
    runLoop (LoopEvent.tick none :: rest) =
      (PassOutcome.fetchError :: (runLoop rest).1, (runLoop rest).2) ∧
    unitsStarted (process none) = [] ∧
    ((runLoop events).2 = true ↔ LoopEvent.ctxDone ∈ events) := by
  refine ⟨rfl, rfl, ?_⟩
  induction events with
  | nil => simp [runLoop]
  | cons e tail ih =>
    cases e with
    | ctxDone => simp [runLoop]
    | tick f => simp [runLoop, ih]

/-- Claim C8: an HTTP response is classified accepted exactly when its status
code is 200, 201 or 202; any other status code makes the attempt return `false`
with no effects (a rejected outcome, not an error), and a `true` return implies
an accepted status code. -/
theorem C8_accept_classification (m : Message) (e : AttemptEnv) (code : Nat)
    (body : RespBody)
    (hreq : e.reqErr = false) (hdo : e.doResult = DoResult.ok code body) :
    (isAcceptedStatus code = true ↔ (code = 200 ∨ code = 201 ∨ code = 202)) ∧
    (isAcceptedStatus code = false → sendMessageWithRetry m e = (false, [])) ∧
    ((sendMessageWithRetry m e).1 = true → isAcceptedStatus code = true) := by
  rcases e with ⟨req, dr, mse, ce⟩
  simp only at hreq hdo
  subst hreq hdo
  refine ⟨?_, ?_, ?_⟩
  · simp [isAcceptedStatus, or_assoc]
  · intro hacc
    cases body <;> simp [sendMessageWithRetry, hacc]
  · intro htrue
    by_cases hacc : isAcceptedStatus code
    · exact hacc
    · cases body <;> simp [sendMessageWithRetry, hacc] at htrue

/-- Claim C6: on an accepted, parseable response, the attempt result is
identical whatever `MarkAsSent` returns — the attempt still counts as success —
and when the response carries a non-empty correlation identifier the cache
write is still attempted. -/
theorem C6_markSent_error_nonfatal (m : Message) (e : AttemptEnv) (code : Nat)
    (mid : String)
    (hreq : e.reqErr = false) (hdo : e.doResult = DoResult.ok code (RespBody.parsed mid))
    (hacc : isAcceptedStatus code = true) (b : Bool) :
    sendMessageWithRetry m ⟨e.reqErr, e.doResult, b, e.cacheErr⟩ = sendMessageWithRetry m e ∧
    (sendMessageWithRetry m e).1 = true ∧
    (mid ≠ "" →
      Effect.cacheSet (redisKeyBase ++ ":" ++ mid) ∈ (sendMessageWithRetry m e).2) := by
  rcases e with ⟨req, dr, mse, ce⟩
  simp only at hreq hdo
  subst hreq hdo
  refine ⟨rfl, ?_, ?_⟩
  · simp [sendMessageWithRetry, hacc]
  · intro hmid
    simp [sendMessageWithRetry, hacc, hmid]



/-- Branch result: attempt 0 succeeds. -/
theorem sendMessage_succ0 (m : Message) (env : DeliveryEnv)
    (hlen : ¬ m.content.utf8ByteSize > maxMessageLength)
    (hm : env.marshalErr = false)
    (h0 : (sendMessageWithRetry m (env.attempts 0)).1 = true) :
    sendMessage m env =
      ⟨Outcome.sentOk, (sendMessageWithRetry m (env.attempts 0)).2, [], 1⟩ := by
  rw [sendMessage_cases m env hlen hm]
  simp only [h0, if_true]

/-- Branch result: attempt 0 fails and the backoff select observes cancellation. -/
theorem sendMessage_cancel0 (m : Message) (env : DeliveryEnv)
    (hlen : ¬ m.content.utf8ByteSize > maxMessageLength)
    (hm : env.marshalErr = false)
    (h0 : (sendMessageWithRetry m (env.attempts 0)).1 = false)
    (c0 : env.cancelAt 0 = true) :
    sendMessage m env = ⟨Outcome.cancelledMidBackoff, [], [], 1⟩ := by
  rw [sendMessage_cases m env hlen hm]
  simp only [h0, Bool.false_eq_true, if_false, c0, if_true]

/-- Branch result: attempt 0 fails, the 1s backoff is waited, attempt 1 succeeds. -/
theorem sendMessage_succ1 (m : Message) (env : DeliveryEnv)
    (hlen : ¬ m.content.utf8ByteSize > maxMessageLength)
    (hm : env.marshalErr = false)
    (h0 : (sendMessageWithRetry m (env.attempts 0)).1 = false)
    (c0 : env.cancelAt 0 = false)
    (h1 : (sendMessageWithRetry m (env.attempts 1)).1 = true) :
    sendMessage m env =
      ⟨Outcome.sentOk, (sendMessageWithRetry m (env.attempts 1)).2, [backoffDelay 0], 2⟩ := by
  rw [sendMessage_cases m env hlen hm]
  simp only [h0, c0, Bool.false_eq_true, if_false, h1, if_true]

/-- Branch result: attempts 0 and 1 fail and the second backoff select observes
cancellation. -/
theorem sendMessage_cancel1 (m : Message) (env : DeliveryEnv)
    (hlen : ¬ m.content.utf8ByteSize > maxMessageLength)
    (hm : env.marshalErr = false)
    (h0 : (sendMessageWithRetry m (env.attempts 0)).1 = false)
    (c0 : env.cancelAt 0 = false)
    (h1 : (sendMessageWithRetry m (env.attempts 1)).1 = false)
    (c1 : env.cancelAt 1 = true) :
    sendMessage m env =
      ⟨Outcome.cancelledMidBackoff, [], [backoffDelay 0], 2⟩ := by
  rw [sendMessage_cases m env hlen hm]
  simp only [h0, c0, h1, Bool.false_eq_true, if_false, c1, if_true]

/-- Branch result: attempts 0 and 1 fail, both backoffs are waited, attempt 2
succeeds. -/
theorem sendMessage_succ2 (m : Message) (env : DeliveryEnv)
    (hlen : ¬ m.content.utf8ByteSize > maxMessageLength)
    (hm : env.marshalErr = false)
    (h0 : (sendMessageWithRetry m (env.attempts 0)).1 = false)
    (c0 : env.cancelAt 0 = false)
    (h1 : (sendMessageWithRetry m (env.attempts 1)).1 = false)
    (c1 : env.cancelAt 1 = false)
    (h2 : (sendMessageWithRetry m (env.attempts 2)).1 = true) :
    sendMessage m env =
      ⟨Outcome.sentOk, (sendMessageWithRetry m (env.attempts 2)).2,
        [backoffDelay 0, backoffDelay 1], 3⟩ := by
  rw [sendMessage_cases m env hlen hm]
  simp only [h0, c0, h1, c1, Bool.false_eq_true, if_false, h2, if_true]

/-- Branch result: all 3 attempts fail with no cancellation observed; the message
is marked failed and only the 1s and 2s backoffs were waited. -/
theorem sendMessage_fail3 (m : Message) (env : DeliveryEnv)
    (hlen : ¬ m.content.utf8ByteSize > maxMessageLength)
    (hm : env.marshalErr = false)
    (h0 : (sendMessageWithRetry m (env.attempts 0)).1 = false)
    (c0 : env.cancelAt 0 = false)
    (h1 : (sendMessageWithRetry m (env.attempts 1)).1 = false)
    (c1 : env.cancelAt 1 = false)
    (h2 : (sendMessageWithRetry m (env.attempts 2)).1 = false) :
    sendMessage m env =
      ⟨Outcome.failedAll, [Effect.markFailed m.id],
        [backoffDelay 0, backoffDelay 1], 3⟩ := by
  rw [sendMessage_cases m env hlen hm]
  simp only [h0, c0, h1, c1, h2, Bool.false_eq_true, if_false]

/-- Claim C2: the unit issues the `MarkAsSent` store write if and only if some
attempt it actually made got an accepted status code with a parseable body;
and an accepted response with an unparseable body makes the attempt return
`false`, counting as a failed attempt. -/
theorem C2_sent_iff (m : Message) (env : DeliveryEnv) (e : AttemptEnv) (code : Nat)
    (hdo : e.doResult = DoResult.ok code RespBody.malformed) :
    (Effect.markSent m.id ∈ (sendMessage m env).effects ↔
      (∃ i, i < (sendMessage m env).attemptsMade ∧
        attemptAcceptedParsed (env.attempts i) = true)) ∧
    (sendMessageWithRetry m e).1 = false := by
  constructor
  · by_cases hlen : m.content.utf8ByteSize > maxMessageLength
    · rw [sendMessage, if_pos hlen]; simp
    · by_cases hmb : env.marshalErr
      · rw [sendMessage, if_neg hlen, if_pos (by simp [hmb])]; simp
      · have hm : env.marshalErr = false := by simpa using hmb
        simp only [← withRetry_fst_eq m]
        by_cases h0 : (sendMessageWithRetry m (env.attempts 0)).1
        · rw [sendMessage_succ0 m env hlen hm h0]
          exact ⟨fun _ => ⟨0, Nat.zero_lt_one, h0⟩,
            fun _ => withRetry_true_mem m (env.attempts 0) h0⟩
        · have h0f : (sendMessageWithRetry m (env.attempts 0)).1 = false := by
            simpa using h0
          by_cases c0 : env.cancelAt 0
          · rw [sendMessage_cancel0 m env hlen hm h0f c0]
            constructor
            · intro hmem; simp at hmem
            · rintro ⟨i, hi, hacc⟩
              interval_cases i
              rw [h0f] at hacc; simp at hacc
          · have c0f : env.cancelAt 0 = false := by simpa using c0
            by_cases h1 : (sendMessageWithRetry m (env.attempts 1)).1
            · rw [sendMessage_succ1 m env hlen hm h0f c0f h1]
              exact ⟨fun _ => ⟨1, Nat.one_lt_two, h1⟩,
                fun _ => withRetry_true_mem m (env.attempts 1) h1⟩
            · have h1f : (sendMessageWithRetry m (env.attempts 1)).1 = false := by
                simpa using h1
              by_cases c1 : env.cancelAt 1
              · rw [sendMessage_cancel1 m env hlen hm h0f c0f h1f c1]
                constructor
                · intro hmem; simp at hmem
                · rintro ⟨i, hi, hacc⟩
                  interval_cases i
                  · rw [h0f] at hacc; simp at hacc
                  · rw [h1f] at hacc; simp at hacc
              · have c1f : env.cancelAt 1 = false := by simpa using c1
                by_cases h2 : (sendMessageWithRetry m (env.attempts 2)).1
                · rw [sendMessage_succ2 m env hlen hm h0f c0f h1f c1f h2]
                  exact ⟨fun _ => ⟨2, by norm_num, h2⟩,
                    fun _ => withRetry_true_mem m (env.attempts 2) h2⟩
                · have h2f : (sendMessageWithRetry m (env.attempts 2)).1 = false := by
                    simpa using h2
                  rw [sendMessage_fail3 m env hlen hm h0f c0f h1f c1f h2f]
                  constructor
                  · intro hmem; simp at hmem
                  · rintro ⟨i, hi, hacc⟩
                    interval_cases i
                    · rw [h0f] at hacc; simp at hacc
                    · rw [h1f] at hacc; simp at hacc
                    · rw [h2f] at hacc; simp at hacc
  · rcases e with ⟨req, dr, mse, ce⟩
    simp only at hdo
    subst hdo
    cases req
    · by_cases hacc : isAcceptedStatus code <;> simp [sendMessageWithRetry, hacc]
    · rfl

/-- Claim C3: the unit issues the `MarkAsFailed` store write if and only if all
3 attempts returned failure and no backoff observed cancellation; and whenever
it is issued, exactly `maxRetries` attempts were made — fewer than 3 completed
failing attempts never produce a failed status. -/
theorem C3_failed_iff (m : Message) (env : DeliveryEnv)
    (hlen : ¬ m.content.utf8ByteSize > maxMessageLength)
    (hm : env.marshalErr = false) :
    (Effect.markFailed m.id ∈ (sendMessage m env).effects ↔
      ((∀ i, i < maxRetries → (sendMessageWithRetry m (env.attempts i)).1 = false) ∧
       (∀ i, i < maxRetries - 1 → env.cancelAt i = false))) ∧
    (Effect.markFailed m.id ∈ (sendMessage m env).effects →
      (sendMessage m env).attemptsMade = maxRetries) := by
  simp only [maxRetries]
  by_cases h0 : (sendMessageWithRetry m (env.attempts 0)).1
  · rw [sendMessage_succ0 m env hlen hm h0]
    have hno := withRetry_no_markFailed m (env.attempts 0) m.id
    refine ⟨⟨fun hmem => absurd hmem hno, ?_⟩, fun hmem => absurd hmem hno⟩
    rintro ⟨hall, -⟩
    have := hall 0 (by norm_num)
    rw [h0] at this; simp at this
  · have h0f : (sendMessageWithRetry m (env.attempts 0)).1 = false := by simpa using h0
    by_cases c0 : env.cancelAt 0
    · rw [sendMessage_cancel0 m env hlen hm h0f c0]
      refine ⟨⟨fun hmem => by simp at hmem, ?_⟩, fun hmem => by simp at hmem⟩
      rintro ⟨-, hcan⟩
      have := hcan 0 (by norm_num)
      rw [c0] at this; simp at this
    · have c0f : env.cancelAt 0 = false := by simpa using c0
      by_cases h1 : (sendMessageWithRetry m (env.attempts 1)).1
      · rw [sendMessage_succ1 m env hlen hm h0f c0f h1]
        have hno := withRetry_no_markFailed m (env.attempts 1) m.id
        refine ⟨⟨fun hmem => absurd hmem hno, ?_⟩, fun hmem => absurd hmem hno⟩
        rintro ⟨hall, -⟩
        have := hall 1 (by norm_num)
        rw [h1] at this; simp at this
      · have h1f : (sendMessageWithRetry m (env.attempts 1)).1 = false := by
          simpa using h1
        by_cases c1 : env.cancelAt 1
        · rw [sendMessage_cancel1 m env hlen hm h0f c0f h1f c1]
          refine ⟨⟨fun hmem => by simp at hmem, ?_⟩, fun hmem => by simp at hmem⟩
          rintro ⟨-, hcan⟩
          have := hcan 1 (by norm_num)
          rw [c1] at this; simp at this
        · have c1f : env.cancelAt 1 = false := by simpa using c1
          by_cases h2 : (sendMessageWithRetry m (env.attempts 2)).1
          · rw [sendMessage_succ2 m env hlen hm h0f c0f h1f c1f h2]
            have hno := withRetry_no_markFailed m (env.attempts 2) m.id
            refine ⟨⟨fun hmem => absurd hmem hno, ?_⟩, fun hmem => absurd hmem hno⟩
            rintro ⟨hall, -⟩
            have := hall 2 (by norm_num)
            rw [h2] at this; simp at this
          · have h2f : (sendMessageWithRetry m (env.attempts 2)).1 = false := by
              simpa using h2
            rw [sendMessage_fail3 m env hlen hm h0f c0f h1f c1f h2f]
            refine ⟨⟨fun _ => ⟨?_, ?_⟩, fun _ => by simp⟩, fun _ => rfl⟩
            · intro i hi
              interval_cases i
              · exact h0f
              · exact h1f
              · exact h2f
            · intro i hi
              interval_cases i
              · exact c0f
              · exact c1f

/-- Claim C1 (amended): the backoff delay before retry attempt `i+1` equals the
base delay times `2^i`, but only the backoffs after attempts 0 and 1 are ever
waited — a message rejected on all 3 attempts waits exactly 1s then 2s, ~3s of
cumulative backoff (not ~7s), before being marked failed; the 4s value of the
formula is never waited because the last attempt returns immediately. -/
theorem C1_amended_backoff (m : Message) (env : DeliveryEnv)
    (hlen : ¬ m.content.utf8ByteSize > maxMessageLength)
    (hm : env.marshalErr = false)
    (hfail : ∀ i, i < maxRetries → (sendMessageWithRetry m (env.attempts i)).1 = false)
    (hcancel : ∀ i, i < maxRetries - 1 → env.cancelAt i = false) :
    (sendMessage m env).delaysWaited = [backoffDelay 0, backoffDelay 1] ∧
    (∀ i, backoffDelay i = baseDelay * 2 ^ i) ∧
    backoffDelay 0 = secondNs ∧
    backoffDelay 1 = 2 * secondNs ∧
    (sendMessage m env).delaysWaited.sum = 3 * secondNs ∧
    (sendMessage m env).outcome = Outcome.failedAll ∧
    (sendMessage m env).attemptsMade = maxRetries := by
  have h0 := hfail 0 (by norm_num [maxRetries])
  have h1 := hfail 1 (by norm_num [maxRetries])
  have h2 := hfail 2 (by norm_num [maxRetries])
  have c0 := hcancel 0 (by norm_num [maxRetries])
  have c1 := hcancel 1 (by norm_num [maxRetries])
  rw [sendMessage_fail3 m env hlen hm h0 c0 h1 c1 h2]
  refine ⟨rfl, fun i => rfl, by decide, by decide, ?_, rfl, rfl⟩
  show List.sum [backoffDelay 0, backoffDelay 1] = 3 * secondNs
  decide

/-- Claim C1, as stated, is false on the code: with every attempt rejected, the
waited delay sequence is `[1s, 2s]`, not `[1s, 2s, 4s]`, and the cumulative
backoff is 3s, not 7s. -/
theorem C1_counterexample :
    (sendMessageWithRetry mFix (envAllFail.attempts 0)).1 = false ∧
    (sendMessageWithRetry mFix (envAllFail.attempts 1)).1 = false ∧
    (sendMessageWithRetry mFix (envAllFail.attempts 2)).1 = false ∧
    (sendMessage mFix envAllFail).outcome = Outcome.failedAll ∧
    (sendMessage mFix envAllFail).delaysWaited = [secondNs, 2 * secondNs] ∧
    (sendMessage mFix envAllFail).delaysWaited ≠ [secondNs, 2 * secondNs, 4 * secondNs] ∧
    (sendMessage mFix envAllFail).delaysWaited.sum = 3 * secondNs ∧
    (sendMessage mFix envAllFail).delaysWaited.sum ≠ 7 * secondNs := by
  refine ⟨rfl, rfl, rfl, rfl, by decide, by decide, by decide, by decide⟩

/-- Witness for claim C1: the amended theorem applied to a concrete all-rejected
run. -/
theorem C1_witness :
    (sendMessage mFix envAllFail).delaysWaited = [backoffDelay 0, backoffDelay 1] ∧
    (sendMessage mFix envAllFail).delaysWaited.sum = 3 * secondNs ∧
    (sendMessage mFix envAllFail).outcome = Outcome.failedAll :=
  ⟨(C1_amended_backoff mFix envAllFail (by decide) rfl (fun i _ => rfl) (fun i _ => rfl)).1,
   (C1_amended_backoff mFix envAllFail (by decide) rfl (fun i _ => rfl)
      (fun i _ => rfl)).2.2.2.2.1,
   (C1_amended_backoff mFix envAllFail (by decide) rfl (fun i _ => rfl)
      (fun i _ => rfl)).2.2.2.2.2.1⟩

/-- Witness for claim C2 at concrete inputs: an accepted first attempt marks the
message sent, and an accepted-but-malformed response counts as a failure. -/
theorem C2_witness :
    Effect.markSent 1 ∈ (sendMessage mFix envAccept).effects ∧
    (sendMessageWithRetry mFix attMalformed200).1 = false :=
  ⟨(C2_sent_iff mFix envAccept attMalformed200 200 rfl).1.mpr ⟨0, by decide, by decide⟩,
   (C2_sent_iff mFix envAccept attMalformed200 200 rfl).2⟩

/-- Witness for claim C3 at a concrete all-rejected run. -/
theorem C3_witness :
    Effect.markFailed 1 ∈ (sendMessage mFix envAllFail).effects ∧
    (sendMessage mFix envAllFail).attemptsMade = maxRetries := by
  have h := C3_failed_iff mFix envAllFail (by decide) rfl
  have hmem := h.1.mpr ⟨fun i _ => rfl, fun i _ => rfl⟩
  exact ⟨hmem, h.2 hmem⟩

set_option maxRecDepth 4096 in
/-- Witness for claim C4: a 161-byte message is skipped with no effects. -/
theorem C4_witness :
    longMsg.content.utf8ByteSize > maxMessageLength ∧
    sendMessage longMsg envAccept = ⟨Outcome.skippedTooLong, [], [], 0⟩ :=
  ⟨by decide, (C4_skip_too_long longMsg envAccept (by decide)).1⟩

/-- Witness for claim C5: cancellation during the first backoff leaves no
effects. -/
theorem C5_witness :
    (sendMessage mFix envCancel0).outcome = Outcome.cancelledMidBackoff ∧
    (sendMessage mFix envCancel0).effects = [] :=
  ⟨by decide, (C5_cancel_leaves_pending mFix envCancel0 (by decide)).1⟩

/-- Witness for claim C6: a failing `MarkAsSent` write does not change the
concrete successful attempt, and the cache write is still attempted. -/
theorem C6_witness :
    sendMessageWithRetry mFix
        ⟨attAccepted.reqErr, attAccepted.doResult, true, attAccepted.cacheErr⟩ =
      sendMessageWithRetry mFix attAccepted ∧
    (sendMessageWithRetry mFix attAccepted).1 = true ∧
    Effect.cacheSet (redisKeyBase ++ ":" ++ "abc") ∈ (sendMessageWithRetry mFix attAccepted).2 := by
  have h := C6_markSent_error_nonfatal mFix attAccepted 200 "abc" rfl rfl (by decide) true
  exact ⟨h.1, h.2.1, h.2.2 (by decide)⟩

/-- Witness for claim C7 on a concrete event sequence: a fetch-error tick, a
successful tick, then cancellation. -/
theorem C7_witness :
    runLoop [LoopEvent.tick none, LoopEvent.tick (some [mFix]), LoopEvent.ctxDone] =
      ([PassOutcome.fetchError, PassOutcome.ran [mFix]], true) ∧
    unitsStarted (process none) = [] ∧
    (runLoop [LoopEvent.ctxDone]).2 = true := by
  have h := C7_fetch_error_nonfatal [LoopEvent.tick (some [mFix]), LoopEvent.ctxDone]
    [LoopEvent.ctxDone]
  exact ⟨by rw [h.1]; rfl, h.2.1, h.2.2.mpr (by simp)⟩

/-- Witness for claim C8 at status code 404: rejected with no effects. -/
theorem C8_witness :
    (isAcceptedStatus 404 = true ↔ (404 = 200 ∨ 404 = 201 ∨ 404 = 202)) ∧
    sendMessageWithRetry mFix ⟨false, DoResult.ok 404 RespBody.malformed, false, false⟩ =
      (false, []) := by
  have h := C8_accept_classification mFix
    ⟨false, DoResult.ok 404 RespBody.malformed, false, false⟩ 404 RespBody.malformed rfl rfl
  exact ⟨h.1, h.2.1 (by decide)⟩

/-- Witness for claim C9 at concrete scheduler states. -/
theorem C9_witness :
    Start ⟨true, 0, false⟩ = (⟨true, 0, false⟩, none, false) ∧
    Stop ⟨false, 0, false⟩ = (⟨false, 0, false⟩, none) ∧
    (Start ⟨false, 0, false⟩).2.1 = none ∧
    (Stop ⟨true, 0, false⟩).2 = none :=
  ⟨(C9_lifecycle_noops ⟨true, 0, false⟩).1 rfl,
   (C9_lifecycle_noops ⟨false, 0, false⟩).2.1 rfl,
   (C9_lifecycle_noops ⟨false, 0, false⟩).2.2.1,
   (C9_lifecycle_noops ⟨true, 0, false⟩).2.2.2⟩

/-- Witness for claim C10: a marshal error leaves the message untouched. -/
theorem C10_witness :
    envMarshalErr.marshalErr = true ∧
    sendMessage mFix envMarshalErr = ⟨Outcome.marshalError, [], [], 0⟩ :=
  ⟨rfl, (C10_marshal_error mFix envMarshalErr (by decide) rfl).1⟩

end Insider
